import Mathlib

/-!
# Verification of rlink-rs core claims

A shallow embedding of the parts of the `rlink-rs` stream-processing runtime
that the claims C1–C10 are about, together with theorems settling each claim.

Embedded source files:
* `rlink-connectors/connector-kafka/src/source/input_format.rs`
  (`KafkaInputFormat::create_input_splits`)
* `rlink/src/functions/system/system_input_format.rs`
  (`SystemInputFormat::open`, `element_iter`, `ChannelIterator::next`,
  `MultiChannelIterator::next`)
* `rlink/src/channel/mod.rs` (`ChannelBaseOn::try_from`)
* `rlink/src/storage/checkpoint/mod.rs` (`CheckpointStorage`)
* `rlink/src/functions/source/vec_input_format.rs` (`vec_source`)

Machine integers (`u16`, `usize`) are embedded as `Nat`; the one place where a
truncating cast matters (`index as u16` in `vec_source`) is embedded explicitly
as `% 65536`. Fallible Rust code is embedded with explicit result types; a Rust
`panic!` (including a division by zero) is an explicit `RunResult.panicked`
outcome so that panicking and returning `Err` are distinguishable.
-/

/-- Outcome of running a fallible piece of Rust code: `Ok`, `Err`, or a
`panic!` (abnormal abort, including arithmetic panics such as division by
zero). -/
inductive RunResult (α : Type) where
  | ok : α → RunResult α
  | err : String → RunResult α
  | panicked : String → RunResult α
  deriving DecidableEq, Repr

/-! ## Properties and InputSplit (rlink core data model) -/

/-- A value stored in a `Properties` bag; `create_input_splits` stores strings
(`set_str`), 32-bit ints (`set_i32`) and booleans (`set_bool`). -/
inductive PropValue where
  | str : String → PropValue
  | i32 : Int → PropValue
  | bool : Bool → PropValue
  deriving DecidableEq, Repr

/-- A property bag: an association list from keys to values, with
insert-or-overwrite semantics for the `set_*` operations. -/
def Properties := List (String × PropValue)

instance : DecidableEq Properties := by
  unfold Properties
  infer_instance

/-- `Properties::new()` — the empty bag. -/
def Properties.new : Properties := []

/-- Insert-or-overwrite a key: the embedding of the map update performed by
`set_str` / `set_i32` / `set_bool`. -/
def Properties.set (p : Properties) (key : String) (v : PropValue) : Properties :=
  match p with
  | [] => [(key, v)]
  | (k, w) :: rest =>
      if k = key then (k, v) :: rest else (k, w) :: Properties.set rest key v

/-- `Properties::set_str`. -/
def Properties.set_str (p : Properties) (key : String) (v : String) : Properties :=
  p.set key (PropValue.str v)

/-- `Properties::set_i32`. -/
def Properties.set_i32 (p : Properties) (key : String) (v : Int) : Properties :=
  p.set key (PropValue.i32 v)

/-- `Properties::set_bool`. -/
def Properties.set_bool (p : Properties) (key : String) (v : Bool) : Properties :=
  p.set key (PropValue.bool v)

/-- Look up a key. -/
def Properties.get (p : Properties) (key : String) : Option PropValue :=
  match p with
  | [] => none
  | (k, w) :: rest => if k = key then some w else Properties.get rest key

/-- `Properties::get_bool` — `some b` when the key holds a boolean. -/
def Properties.get_bool (p : Properties) (key : String) : Option Bool :=
  match p.get key with
  | some (PropValue.bool b) => some b
  | _ => none

/-- `InputSplit`: a split number plus a property bag
(`rlink::core::function::InputSplit`). -/
structure InputSplit where
  split_number : Nat
  properties : Properties
  deriving DecidableEq

/-- `InputSplit::new`. -/
def InputSplit.new (split_number : Nat) (properties : Properties) : InputSplit :=
  ⟨split_number, properties⟩

/-! ## KafkaInputFormat::create_input_splits
(`rlink-connectors/connector-kafka/src/source/input_format.rs`, lines 256–315)

The Kafka broker interaction (`fetch_metadata`) is abstracted by giving the
function the discovered metadata directly: for each configured topic, the list
of partition ids that `metadata_topic.partitions()` yields. Consumer-creation
and metadata-fetch failures are earlier `Err` returns that do not interact
with the claims, which all concern the split-count logic after enumeration. -/

/-- The `CREATE_KAFKA_CONNECTION` property key. -/
def CREATE_KAFKA_CONNECTION : String := "create_kafka_connection"

/-- The inner `for partition in metadata_topic.partitions()` loop of
`create_input_splits`: pushes one split per partition, incrementing `index`,
and `break`s out of this (inner) loop when `index == min_num_splits`. -/
def kafkaEnumTopic (topic : String) (partitions : List Int) (min_num_splits : Nat)
    (index : Nat) (acc : List InputSplit) : Nat × List InputSplit :=
  match partitions with
  | [] => (index, acc)
  | p :: rest =>
      let properties :=
        ((Properties.new.set_str "topic" topic).set_i32 "partition" p).set_bool
          CREATE_KAFKA_CONNECTION true
      let input_split := InputSplit.new index properties
      let index := index + 1
      let acc := acc ++ [input_split]
      if index = min_num_splits then (index, acc)
      else kafkaEnumTopic topic rest min_num_splits index acc

/-- The full enumeration phase of `create_input_splits`: the outer
`for topic in &self.topics` loop. Note the inner `break` leaves the outer loop
running, so later topics keep contributing splits. -/
def kafkaEnumSplits (topics : List (String × List Int)) (min_num_splits : Nat) :
    List InputSplit :=
  (topics.foldl
    (fun (st : Nat × List InputSplit) t =>
      kafkaEnumTopic t.1 t.2 min_num_splits st.1 st.2)
    (0, [])).2

/-- The body of the replication loop of `create_input_splits` (lines 303–309):
clone a split's property bag with `create_kafka_connection = false`, keeping
its `split_number`. -/
def kafkaCloneSplit (input_split : InputSplit) : InputSplit :=
  InputSplit.new input_split.split_number
    (input_split.properties.set_bool CREATE_KAFKA_CONNECTION false)

/-- `KafkaInputFormat::create_input_splits` after the enumeration phase:
- more splits than `min_num_splits` → `Err`;
- fewer → replicate: `times = (min + len - 1) / len` (a division that panics
  when `len = 0`), then `times - 1` extra rounds cloning every split with
  `create_kafka_connection = false`. -/
def create_input_splits (topics : List (String × List Int)) (min_num_splits : Nat) :
    RunResult (List InputSplit) :=
  let input_splits := kafkaEnumSplits topics min_num_splits
  if input_splits.length > min_num_splits then
    RunResult.err "kafka `input_splits.len()` != `min_num_splits`"
  else if input_splits.length < min_num_splits then
    if input_splits.length = 0 then
      RunResult.panicked "attempt to divide by zero"
    else
      let times := (min_num_splits + input_splits.length - 1) / input_splits.length
      let extend_input_splits :=
        (List.range (times - 1)).flatMap (fun _ => input_splits.map kafkaCloneSplit)
      RunResult.ok (input_splits ++ extend_input_splits)
  else
    RunResult.ok input_splits

/-! ## Channel layer (`rlink/src/channel/mod.rs`) -/

/-- `ChannelBaseOn` (`rlink/src/channel/mod.rs`, lines 41–45). -/
inductive ChannelBaseOn where
  | Unbounded
  | Bounded
  deriving DecidableEq, Repr

/-- Embedding of Rust's `str::to_lowercase` as character-wise lowercasing;
the configuration strings involved are ASCII. -/
def rustToLowercase (s : String) : String :=
  s.map Char.toLower

/-- `ChannelBaseOn::try_from` (`rlink/src/channel/mod.rs`, lines 47–58):
lowercase the input, then match `"bounded"` / `"unbounded"`, anything else is
an error. -/
def ChannelBaseOn.try_from (mode_str : String) : Except String ChannelBaseOn :=
  let mode_str := rustToLowercase mode_str
  if mode_str = "bounded" then Except.ok ChannelBaseOn.Bounded
  else if mode_str = "unbounded" then Except.ok ChannelBaseOn.Unbounded
  else Except.error ("Unsupported mode " ++ mode_str)

/-! ## Element stream data model -/

/-- Modelled from the spec (§3): `TaskId` is `(job_id, task_number, num_tasks)`;
the concrete `rlink::core::runtime::TaskId` is not under `src/`. -/
structure TaskId where
  job_id : Nat
  task_number : Nat
  num_tasks : Nat
  deriving DecidableEq, Repr

/-- Modelled from the spec (§3): `Record` carries an opaque byte buffer, an
event timestamp and an optional routing key; the concrete
`rlink::core::element::Record` is not under `src/`. Its internals are opaque
to every function embedded here. -/
structure Record where
  bytes : List Nat
  timestamp : Int
  key : Option (List Nat)
  deriving DecidableEq, Repr

/-- Modelled from the spec (§3): `Element` is the union type flowing on
channels, with variants `Record`, `Watermark(ts)`, `Barrier(checkpoint_id)`
and `StreamStatus(idle|active)`; the concrete `rlink::core::element::Element`
is not under `src/`. -/
inductive Element where
  | record : Record → Element
  | watermark : Int → Element
  | barrier : Nat → Element
  | streamStatus : Bool → Element
  deriving DecidableEq, Repr

/-! ## ChannelIterator and MultiChannelIterator
(`rlink/src/functions/system/system_input_format.rs`, lines 136–203)

The blocking `recv()` of a crossbeam receiver either delivers an element or
reports that the channel is disconnected (`RecvError`); `try_recv()` can also
report `Empty`. The iterators consult the process-global coordinator status
(`get_coordinator_status().is_terminated()`); the status observed at the
element boundary is passed in as the `terminated : Bool` argument. One call to
`next` is embedded as a function of those observed channel outcomes. -/

/-- Result of `Receiver::recv()`: an element, or `RecvError` (disconnected). -/
inductive RecvResult (α : Type) where
  | ok : α → RecvResult α
  | err : RecvResult α
  deriving DecidableEq, Repr

/-- Result of `Receiver::try_recv()` (`TryRecvError` has `Empty` and
`Disconnected`). -/
inductive TryRecvResult (α : Type) where
  | ok : α → TryRecvResult α
  | empty : TryRecvResult α
  | disconnected : TryRecvResult α
  deriving DecidableEq, Repr

/-- Observable outcome of one `Iterator::next` call: yield an element, finish
(`None`), or abort with `panic!`. -/
inductive IterStep (α : Type) where
  | yield : α → IterStep α
  | done : IterStep α
  | panicked : String → IterStep α
  deriving DecidableEq, Repr

/-- `ChannelIterator::next` (lines 149–162): `recv()`, then on `Ok` check the
coordinator status — terminated means return `None`, otherwise yield; on
`Err` (disconnected) `panic!("network_receiver Disconnected")`. -/
def ChannelIterator.next (recv : RecvResult Element) (terminated : Bool) :
    IterStep Element :=
  match recv with
  | RecvResult.ok element =>
      if terminated then IterStep.done
      else IterStep.yield element
  | RecvResult.err => IterStep.panicked "network_receiver Disconnected"

/-- `MultiChannelIterator::next` (lines 178–202): loop over ready-select +
`try_recv` outcomes; `Ok` checks the coordinator status (terminated → `None`,
else yield), `Empty` continues the loop, `Disconnected`
`panic!("the channel is Disconnected")`. The argument `polls` is the sequence
of `try_recv` results the loop observes, in order; `none` means the loop was
still running after consuming all of them (still blocked selecting). -/
def MultiChannelIterator.next (polls : List (TryRecvResult Element))
    (terminated : Bool) : Option (IterStep Element) :=
  match polls with
  | [] => none
  | p :: rest =>
      match p with
      | TryRecvResult.ok element =>
          some (if terminated then IterStep.done else IterStep.yield element)
      | TryRecvResult.empty => MultiChannelIterator.next rest terminated
      | TryRecvResult.disconnected =>
          some (IterStep.panicked "the channel is Disconnected")

/-! ## SystemInputFormat (`rlink/src/functions/system/system_input_format.rs`) -/

/-- `ExecutionEdge` (`rlink/src/dag/execution_graph.rs`): `Memory | Network`. -/
inductive ExecutionEdge where
  | Memory
  | Network
  deriving DecidableEq, Repr

/-- The part of an `ExecutionNode` that `SystemInputFormat::open` reads: its
`task_id`. -/
structure ExecutionNode where
  task_id : TaskId
  deriving DecidableEq, Repr

/-- The part of the application properties `SystemInputFormat::open` reads:
`get_pub_sub_channel_size()` and `get_pub_sub_channel_base()`, both of which
may be absent (`unwrap_or` a default at the call site). -/
structure ApplicationProperties where
  pub_sub_channel_size : Option Nat
  pub_sub_channel_base : Option ChannelBaseOn
  deriving DecidableEq, Repr

/-- The part of the task `Context` that `SystemInputFormat` reads: the task's
id, the parent edge descriptors, and the application properties. -/
structure Context where
  task_id : TaskId
  parents : List (ExecutionNode × ExecutionEdge)
  application_properties : ApplicationProperties
  deriving DecidableEq, Repr

/-- Modelled from the spec (§4.3): the default channel capacity constant
`DEFAULT_CHANNEL_SIZE` of the `pub_sub` module, which is not under `src/`.
The spec does not fix its value; every claim below depends only on the two
subscribe calls receiving the same resolved value, never on the value itself. -/
def DEFAULT_CHANNEL_SIZE : Nat := 50000

/-- Which pub/sub transport a receiver was subscribed through. -/
inductive PubSubKind where
  | memory
  | network
  deriving DecidableEq, Repr

/-- Modelled from the spec (§4.3): `subscribe(upstream_task_ids,
downstream_task_id, capacity, base_mode) -> ElementReceiver`. The `memory` and
`network` pub/sub modules are not under `src/`; an `ElementReceiver` is
embedded as the record of the subscription that produced it, which is all the
claims below observe. -/
structure ElementReceiver where
  kind : PubSubKind
  upstream_task_ids : List TaskId
  downstream_task_id : TaskId
  channel_size : Nat
  channel_base_on : ChannelBaseOn
  deriving DecidableEq, Repr

/-- Modelled from the spec (§4.3): `memory::subscribe`. -/
def memorySubscribe (upstream_task_ids : List TaskId) (downstream_task_id : TaskId)
    (channel_size : Nat) (channel_base_on : ChannelBaseOn) : ElementReceiver :=
  ⟨PubSubKind.memory, upstream_task_ids, downstream_task_id, channel_size,
    channel_base_on⟩

/-- Modelled from the spec (§4.3): `network::subscribe`. -/
def networkSubscribe (upstream_task_ids : List TaskId) (downstream_task_id : TaskId)
    (channel_size : Nat) (channel_base_on : ChannelBaseOn) : ElementReceiver :=
  ⟨PubSubKind.network, upstream_task_ids, downstream_task_id, channel_size,
    channel_base_on⟩

/-- `SystemInputFormat` state (lines 13–18): the two optional receivers and
the task id. -/
structure SystemInputFormat where
  memory_receiver : Option ElementReceiver
  network_receiver : Option ElementReceiver
  task_id : TaskId
  deriving DecidableEq, Repr

/-- `SystemInputFormat::new` (lines 21–27): both receivers `None`,
default task id. -/
def SystemInputFormat.new : SystemInputFormat :=
  ⟨none, none, ⟨0, 0, 0⟩⟩

/-- `SystemInputFormat::open` (lines 46–90): resolve `channel_size` and
`channel_base_on` from the application properties (with defaults), partition
the parents into memory jobs and network jobs by their edge kind, and
subscribe each non-empty group through the corresponding pub/sub. -/
def SystemInputFormat.open (s : SystemInputFormat) (context : Context) :
    SystemInputFormat :=
  let task_id := context.task_id
  let channel_size :=
    context.application_properties.pub_sub_channel_size.getD DEFAULT_CHANNEL_SIZE
  let channel_base_on :=
    context.application_properties.pub_sub_channel_base.getD ChannelBaseOn.Unbounded
  let jobs :=
    context.parents.foldl
      (fun (acc : List TaskId × List TaskId) p =>
        match p.2 with
        | ExecutionEdge.Memory => (acc.1 ++ [p.1.task_id], acc.2)
        | ExecutionEdge.Network => (acc.1, acc.2 ++ [p.1.task_id]))
      ([], [])
  let memory_jobs := jobs.1
  let network_jobs := jobs.2
  let memory_receiver :=
    if memory_jobs.length > 0 then
      some (memorySubscribe memory_jobs context.task_id channel_size channel_base_on)
    else s.memory_receiver
  let network_receiver :=
    if network_jobs.length > 0 then
      some (networkSubscribe network_jobs context.task_id channel_size channel_base_on)
    else s.network_receiver
  ⟨memory_receiver, network_receiver, task_id⟩

/-- The iterator `element_iter` boxes: a single-channel iterator over one
receiver, or a multi-channel iterator over several. -/
inductive ElementIter where
  | chan : ElementReceiver → ElementIter
  | multi : List ElementReceiver → ElementIter
  deriving DecidableEq, Repr

/-- `SystemInputFormat::element_iter` (lines 96–110): collect the installed
receivers (memory first, then network); matching on `receivers.len()`,
`0 → panic!("unsupported")`, `1 → ChannelIterator(receivers.remove(0))`,
`_ → MultiChannelIterator(receivers)`. The length match is embedded as the
equivalent structural match on the list. -/
def SystemInputFormat.element_iter (s : SystemInputFormat) : RunResult ElementIter :=
  let receivers :=
    (match s.memory_receiver with
      | some n => [n]
      | none => []) ++
    (match s.network_receiver with
      | some n => [n]
      | none => [])
  match receivers with
  | [] => RunResult.panicked "unsupported"
  | [n] => RunResult.ok (ElementIter.chan n)
  | ns => RunResult.ok (ElementIter.multi ns)

/-! ## CheckpointStorage (`rlink/src/storage/checkpoint/mod.rs`)

The concrete backends (`memory_checkpoint_storage.rs`,
`mysql_checkpoint_storage.rs`) are not under `src/`; only the dispatching
wrapper is. The dispatcher is embedded with the concrete `save` / `load` /
`load_by_checkpoint_id` behaviors passed in as function parameters, so the
delegation theorems hold for every possible backend behavior. -/

/-- `CheckpointId` (`rlink::core::runtime::CheckpointId`), a numeric id. -/
def CheckpointId := Nat

instance : DecidableEq CheckpointId := by
  unfold CheckpointId
  infer_instance

/-- Modelled from the spec (§3): `Checkpoint` is
`{task_id, checkpoint_id, handle_bytes, completed_checkpoint_id}`; the
concrete `rlink::core::checkpoint::Checkpoint` is not under `src/`. Its
internals are opaque to the dispatcher. -/
structure Checkpoint where
  task_id : TaskId
  checkpoint_id : CheckpointId
  handle_bytes : List Nat
  completed_checkpoint_id : CheckpointId

/-- Modelled from the spec (§6): `checkpoint.backend ∈
{memory, relational+endpoint+table}`; the concrete
`rlink::core::backend::CheckpointBackend` is not under `src/`. -/
inductive CheckpointBackend where
  | Memory
  | MySql : (endpoint : String) → (table : String) → CheckpointBackend

/-- Modelled from the spec (§1): the in-memory backend; its internal state is
not under `src/` and is opaque to the dispatcher, so it is embedded as an
abstract state. -/
structure MemoryCheckpointStorage where
  state : Nat

/-- Modelled from the spec: `MemoryCheckpointStorage::new()`, a fresh
in-memory store. -/
def MemoryCheckpointStorage.new : MemoryCheckpointStorage := ⟨0⟩

/-- Modelled from the spec: the relational backend holds the endpoint and
table it was constructed with; its implementation is not under `src/`. -/
structure MySqlCheckpointStorage where
  endpoint : String
  table : String

/-- Modelled from the spec: `MySqlCheckpointStorage::new(endpoint, table)`. -/
def MySqlCheckpointStorage.new (endpoint : String) (table : String) :
    MySqlCheckpointStorage :=
  ⟨endpoint, table⟩

/-- `CheckpointStorage` (lines 34–37): the two-variant wrapper enum. -/
inductive CheckpointStorage where
  | memoryCheckpointStorage : MemoryCheckpointStorage → CheckpointStorage
  | mySqlCheckpointStorage : MySqlCheckpointStorage → CheckpointStorage

/-- `CheckpointStorage::new` (lines 40–52): `Memory` wraps
`MemoryCheckpointStorage::new()`; `MySql { endpoint, table }` wraps
`MySqlCheckpointStorage::new(endpoint, table)`. -/
def CheckpointStorage.new (checkpoint_backend : CheckpointBackend) :
    CheckpointStorage :=
  match checkpoint_backend with
  | CheckpointBackend.Memory =>
      CheckpointStorage.memoryCheckpointStorage MemoryCheckpointStorage.new
  | CheckpointBackend.MySql endpoint table =>
      CheckpointStorage.mySqlCheckpointStorage
        (MySqlCheckpointStorage.new endpoint table)

/-- The arguments of `TCheckpointStorage::save`. -/
structure SaveArgs where
  application_name : String
  application_id : String
  checkpoint_id : CheckpointId
  finish_cks : List Checkpoint
  ttl : Nat

/-- The arguments of `TCheckpointStorage::load`. -/
structure LoadArgs where
  application_name : String
  application_id : String

/-- The arguments of `TCheckpointStorage::load_by_checkpoint_id`. -/
structure LoadByIdArgs where
  application_name : String
  application_id : String
  checkpoint_id : CheckpointId

/-- `impl TCheckpointStorage for CheckpointStorage`, `save` (lines 56–80):
match on the variant and forward all five arguments to the wrapped storage,
whose behavior is the parameter `memSave` / `mySqlSave`. -/
def CheckpointStorage.save
    (memSave : MemoryCheckpointStorage → SaveArgs → Except String Unit)
    (mySqlSave : MySqlCheckpointStorage → SaveArgs → Except String Unit)
    (s : CheckpointStorage) (args : SaveArgs) : Except String Unit :=
  match s with
  | CheckpointStorage.memoryCheckpointStorage storage => memSave storage args
  | CheckpointStorage.mySqlCheckpointStorage storage => mySqlSave storage args

/-- `impl TCheckpointStorage for CheckpointStorage`, `load` (lines 82–95). -/
def CheckpointStorage.load
    (memLoad : MemoryCheckpointStorage → LoadArgs → Except String (List Checkpoint))
    (mySqlLoad : MySqlCheckpointStorage → LoadArgs → Except String (List Checkpoint))
    (s : CheckpointStorage) (args : LoadArgs) : Except String (List Checkpoint) :=
  match s with
  | CheckpointStorage.memoryCheckpointStorage storage => memLoad storage args
  | CheckpointStorage.mySqlCheckpointStorage storage => mySqlLoad storage args

/-- `impl TCheckpointStorage for CheckpointStorage`, `load_by_checkpoint_id`
(lines 97–111). -/
def CheckpointStorage.load_by_checkpoint_id
    (memLoadById : MemoryCheckpointStorage → LoadByIdArgs → Except String (List Checkpoint))
    (mySqlLoadById : MySqlCheckpointStorage → LoadByIdArgs → Except String (List Checkpoint))
    (s : CheckpointStorage) (args : LoadByIdArgs) : Except String (List Checkpoint) :=
  match s with
  | CheckpointStorage.memoryCheckpointStorage storage => memLoadById storage args
  | CheckpointStorage.mySqlCheckpointStorage storage => mySqlLoadById storage args

/-! ## vec_source (`rlink/src/functions/source/vec_input_format.rs`, lines 8–38)

`vec_source` builds an `IteratorInputFormat` whose `record_iter` closure
receives the task's `Context` and selects this task's share of the vector.
The index comparison in the source is `index as u16 % num_tasks == task_number`
— the `usize` index is truncated to `u16` before the modulo, embedded as
`% 65536`. `num_tasks == 0` would make the Rust `%` panic; the runtime
guarantees `num_tasks ≥ 1` (spec §3 invariants), and every theorem below
assumes it. -/

/-- The record selection of the closure inside `vec_source`: the full vector
when `num_tasks == 1`, otherwise the records whose truncated index matches
`task_number` modulo `num_tasks`, kept in order. -/
def vec_source_task_data (data : List Record) (num_tasks : Nat) (task_number : Nat) :
    List Record :=
  if num_tasks = 1 then data
  else
    data.enum.filterMap (fun x =>
      if x.1 % 65536 % num_tasks = task_number then some x.2 else none)

/-- The claim's description of the selection (no index truncation): the
records whose index `i` in `data` satisfies `i % num_tasks = task_number`,
in increasing index order. Stated from the claim's words, to be compared with
`vec_source_task_data`. -/
def vec_source_claimed_data (data : List Record) (num_tasks : Nat)
    (task_number : Nat) : List Record :=
  data.enum.filterMap (fun x =>
    if x.1 % num_tasks = task_number then some x.2 else none)

/-! ## Supporting lemmas -/

/-- Setting a key makes `get` of that key return the new value. -/
theorem Properties.get_set (p : Properties) (key : String) (v : PropValue) :
    (p.set key v).get key = some v := by
  induction p with
  | nil => simp [Properties.set, Properties.get]
  | cons kv rest ih =>
      obtain ⟨k, w⟩ := kv
      by_cases h : k = key
      · simp [Properties.set, Properties.get, h]
      · simp [Properties.set, Properties.get, h, ih]

/-- `set_bool` followed by `get_bool` on the same key yields the value set. -/
theorem Properties.get_bool_set_bool (p : Properties) (key : String) (b : Bool) :
    (p.set_bool key b).get_bool key = some b := by
  simp [Properties.get_bool, Properties.set_bool, Properties.get_set]

/-- Every split the inner partition loop adds has the
`create_kafka_connection` flag set to `true`. -/
theorem kafkaEnumTopic_flag (topic : String) (partitions : List Int)
    (min_num_splits index : Nat) (acc : List InputSplit) (sp : InputSplit)
    (h : sp ∈ (kafkaEnumTopic topic partitions min_num_splits index acc).2) :
    sp ∈ acc ∨ sp.properties.get_bool CREATE_KAFKA_CONNECTION = some true := by
  induction partitions generalizing index acc with
  | nil =>
      simp only [kafkaEnumTopic] at h
      exact Or.inl h
  | cons p rest ih =>
      simp only [kafkaEnumTopic] at h
      by_cases hbr : index + 1 = min_num_splits
      · rw [if_pos hbr] at h
        simp only [List.mem_append, List.mem_singleton] at h
        rcases h with h | h
        · exact Or.inl h
        · subst h
          exact Or.inr (Properties.get_bool_set_bool _ _ _)
      · rw [if_neg hbr] at h
        rcases ih _ _ h with h | h
        · simp only [List.mem_append, List.mem_singleton] at h
          rcases h with h | h
          · exact Or.inl h
          · subst h
            exact Or.inr (Properties.get_bool_set_bool _ _ _)
        · exact Or.inr h

/-- Every split the full enumeration produces has the
`create_kafka_connection` flag set to `true`. -/
theorem kafkaEnumSplits_flag (topics : List (String × List Int))
    (min_num_splits : Nat) (sp : InputSplit)
    (h : sp ∈ kafkaEnumSplits topics min_num_splits) :
    sp.properties.get_bool CREATE_KAFKA_CONNECTION = some true := by
  suffices H : ∀ (st : Nat × List InputSplit),
      sp ∈ (topics.foldl
        (fun (st : Nat × List InputSplit) t =>
          kafkaEnumTopic t.1 t.2 min_num_splits st.1 st.2) st).2 →
      sp ∈ st.2 ∨ sp.properties.get_bool CREATE_KAFKA_CONNECTION = some true by
    rcases H (0, []) h with h0 | h0
    · simp at h0
    · exact h0
  clear h
  induction topics with
  | nil =>
      intro st h
      exact Or.inl h
  | cons t rest ih =>
      intro st h
      rcases ih _ h with h0 | h0
      · exact kafkaEnumTopic_flag _ _ _ _ _ _ h0
      · exact Or.inr h0

/-! ## Claim theorems: Kafka input splits -/

/-- C1: for every configuration of topics (embedded as the discovered
partition metadata) and every `min_num_splits`, whenever the enumeration
phase of `KafkaInputFormat::create_input_splits` yields more input splits
than `min_num_splits`, the function returns an `Err` rather than `Ok`. -/
theorem create_input_splits_err_when_too_many (topics : List (String × List Int))
    (min_num_splits : Nat)
    (h : (kafkaEnumSplits topics min_num_splits).length > min_num_splits) :
    create_input_splits topics min_num_splits =
      RunResult.err "kafka `input_splits.len()` != `min_num_splits`" := by
  unfold create_input_splits
  rw [if_pos h]

/-- Witness for C1: two topics with two partitions each and
`min_num_splits = 1` — the inner `break` does not stop the outer topic loop,
three splits are enumerated, and the function errors. -/
theorem create_input_splits_err_when_too_many_witness :
    (kafkaEnumSplits [("a", [0, 1]), ("b", [2, 3])] 1).length > 1 ∧
      create_input_splits [("a", [0, 1]), ("b", [2, 3])] 1 =
        RunResult.err "kafka `input_splits.len()` != `min_num_splits`" :=
  ⟨by decide, create_input_splits_err_when_too_many _ _ (by decide)⟩

/-- C3: when the enumeration discovers `0 < s < min_num_splits` splits,
`create_input_splits` returns `Ok` of the originals extended by exactly
`(min_num_splits + s - 1) / s - 1` (that is, `ceil(min_num_splits / s) - 1`)
additional rounds, each round cloning every original split (same
`split_number`, property bag with `create_kafka_connection = false`, while
the originals carry `true`); the returned vector has length
`s * ((min_num_splits + s - 1) / s)` = `s * ceil(min_num_splits / s)`. -/
theorem create_input_splits_replicates (topics : List (String × List Int))
    (min_num_splits : Nat)
    (h0 : 0 < (kafkaEnumSplits topics min_num_splits).length)
    (h1 : (kafkaEnumSplits topics min_num_splits).length < min_num_splits) :
    create_input_splits topics min_num_splits =
      RunResult.ok (kafkaEnumSplits topics min_num_splits ++
        (List.range
          ((min_num_splits + (kafkaEnumSplits topics min_num_splits).length - 1) /
              (kafkaEnumSplits topics min_num_splits).length - 1)).flatMap
          (fun _ => (kafkaEnumSplits topics min_num_splits).map kafkaCloneSplit)) ∧
    (kafkaEnumSplits topics min_num_splits ++
        (List.range
          ((min_num_splits + (kafkaEnumSplits topics min_num_splits).length - 1) /
              (kafkaEnumSplits topics min_num_splits).length - 1)).flatMap
          (fun _ => (kafkaEnumSplits topics min_num_splits).map kafkaCloneSplit)).length =
      (kafkaEnumSplits topics min_num_splits).length *
        ((min_num_splits + (kafkaEnumSplits topics min_num_splits).length - 1) /
          (kafkaEnumSplits topics min_num_splits).length) ∧
    (∀ sp ∈ kafkaEnumSplits topics min_num_splits,
      sp.properties.get_bool CREATE_KAFKA_CONNECTION = some true ∧
      (kafkaCloneSplit sp).split_number = sp.split_number ∧
      (kafkaCloneSplit sp).properties.get_bool CREATE_KAFKA_CONNECTION = some false) := by
  refine ⟨?_, ?_, ?_⟩
  · unfold create_input_splits
    rw [if_neg (by omega), if_pos h1, if_neg (by omega)]
  · set L := (kafkaEnumSplits topics min_num_splits).length with hL
    set t := (min_num_splits + L - 1) / L with ht
    have h2 : 2 ≤ t := by
      rw [ht, Nat.le_div_iff_mul_le h0]
      omega
    obtain ⟨k, hk⟩ : ∃ k, t = k + 1 := ⟨t - 1, by omega⟩
    have h3 : t - 1 = k := by omega
    rw [List.length_append, List.length_flatMap]
    simp only [List.map_map, List.length_map, Function.comp_def, ← hL]
    rw [List.map_const', List.sum_replicate, List.length_range, smul_eq_mul, h3, hk]
    ring
  · intro sp hsp
    exact ⟨kafkaEnumSplits_flag _ _ _ hsp, rfl, Properties.get_bool_set_bool _ _ _⟩

/-- Witness for C3: one topic with two partitions and `min_num_splits = 5`:
two originals, `ceil(5/2) - 1 = 2` extra rounds, six splits in total. -/
theorem create_input_splits_replicates_witness :
    0 < (kafkaEnumSplits [("t", [0, 1])] 5).length ∧
    (kafkaEnumSplits [("t", [0, 1])] 5).length < 5 ∧
    create_input_splits [("t", [0, 1])] 5 =
      RunResult.ok (kafkaEnumSplits [("t", [0, 1])] 5 ++
        (List.range
          ((5 + (kafkaEnumSplits [("t", [0, 1])] 5).length - 1) /
              (kafkaEnumSplits [("t", [0, 1])] 5).length - 1)).flatMap
          (fun _ => (kafkaEnumSplits [("t", [0, 1])] 5).map kafkaCloneSplit)) :=
  ⟨by decide, by decide,
    (create_input_splits_replicates [("t", [0, 1])] 5 (by decide) (by decide)).1⟩

/-- C10: for `min_num_splits > 0`, `create_input_splits` panics (with the
division-by-zero panic of `times = (min + len - 1) / len`) exactly when the
enumeration discovered zero splits; with at least one discovered split the
division is guarded and the function never panics. -/
theorem create_input_splits_div_by_zero (topics : List (String × List Int))
    (min_num_splits : Nat) (h : 0 < min_num_splits) :
    (create_input_splits topics min_num_splits =
        RunResult.panicked "attempt to divide by zero") ↔
      (kafkaEnumSplits topics min_num_splits).length = 0 := by
  unfold create_input_splits
  by_cases hgt : (kafkaEnumSplits topics min_num_splits).length > min_num_splits
  · rw [if_pos hgt]
    constructor
    · intro hcontra
      exact absurd hcontra (by simp)
    · intro h0
      omega
  · rw [if_neg hgt]
    by_cases hlt : (kafkaEnumSplits topics min_num_splits).length < min_num_splits
    · rw [if_pos hlt]
      by_cases hz : (kafkaEnumSplits topics min_num_splits).length = 0
      · rw [if_pos hz]
        simp [hz]
      · rw [if_neg hz]
        simp [hz]
    · rw [if_neg hlt]
      constructor
      · intro hcontra
        exact absurd hcontra (by simp)
      · intro h0
        omega

/-- Witness for C10: one topic that yields no partitions and
`min_num_splits = 3` — the replication step divides by zero and panics. -/
theorem create_input_splits_div_by_zero_witness :
    (0 : Nat) < 3 ∧
    ((create_input_splits [("t", ([] : List Int))] 3 =
        RunResult.panicked "attempt to divide by zero") ↔
      (kafkaEnumSplits [("t", ([] : List Int))] 3).length = 0) :=
  ⟨by decide, create_input_splits_div_by_zero [("t", [])] 3 (by decide)⟩

/-! ## Claim theorems: channel iterators -/

/-- C2 counterexample: on a disconnected upstream channel both
`ChannelIterator::next` and `MultiChannelIterator::next` `panic!` — they abort
the task abnormally instead of terminating normally (`None`) as the claim
states. -/
theorem iterators_disconnected_not_done :
    ChannelIterator.next RecvResult.err false ≠ IterStep.done ∧
    ChannelIterator.next RecvResult.err false =
      IterStep.panicked "network_receiver Disconnected" ∧
    MultiChannelIterator.next [TryRecvResult.disconnected] false ≠
      some IterStep.done ∧
    MultiChannelIterator.next [TryRecvResult.disconnected] false =
      some (IterStep.panicked "the channel is Disconnected") := by
  refine ⟨by decide, rfl, by decide, rfl⟩

/-- C2 (amended): whenever the input iterator observes a disconnected
upstream channel — `recv` returning `Err`, or `try_recv` returning
`Disconnected` after any number of `Empty` polls — the element iterator
aborts the task abnormally with a `panic!`, regardless of the coordinator
status; it does not terminate normally. -/
theorem iterators_disconnected_panic (terminated : Bool) (n : Nat) :
    ChannelIterator.next RecvResult.err terminated =
      IterStep.panicked "network_receiver Disconnected" ∧
    MultiChannelIterator.next
        (List.replicate n TryRecvResult.empty ++ [TryRecvResult.disconnected])
        terminated =
      some (IterStep.panicked "the channel is Disconnected") := by
  constructor
  · rfl
  · induction n with
    | zero => rfl
    | succ k ih =>
        simpa [List.replicate_succ, MultiChannelIterator.next] using ih

/-- C4: with the coordinator status observed `Terminated` at the element
boundary, `ChannelIterator::next` and `MultiChannelIterator::next` return
`None` when an element is received, and neither iterator can yield an element
— so the task loop exits cleanly and no element is yielded after the status
is observed `Terminated`. -/
theorem iterators_stop_on_terminated :
    (∀ e, ChannelIterator.next (RecvResult.ok e) true = IterStep.done) ∧
    (∀ r e, ChannelIterator.next r true ≠ IterStep.yield e) ∧
    (∀ n e, MultiChannelIterator.next
        (List.replicate n TryRecvResult.empty ++ [TryRecvResult.ok e]) true =
      some IterStep.done) ∧
    (∀ polls e, MultiChannelIterator.next polls true ≠
      some (IterStep.yield e)) := by
  refine ⟨fun e => rfl, ?_, ?_, ?_⟩
  · intro r e
    cases r <;> simp [ChannelIterator.next]
  · intro n e
    induction n with
    | zero => rfl
    | succ k ih =>
        simpa [List.replicate_succ, MultiChannelIterator.next] using ih
  · intro polls e
    induction polls with
    | nil => simp [MultiChannelIterator.next]
    | cons p rest ih =>
        cases p <;> simp [MultiChannelIterator.next, ih]

/-! ## Claim theorems: SystemInputFormat::open / element_iter -/

/-- The task ids of the parents classified `ExecutionEdge::Memory`, in parent
order. -/
def memoryParentIds (parents : List (ExecutionNode × ExecutionEdge)) : List TaskId :=
  parents.filterMap (fun p =>
    match p.2 with
    | ExecutionEdge.Memory => some p.1.task_id
    | ExecutionEdge.Network => none)

/-- The task ids of the parents classified `ExecutionEdge::Network`, in parent
order. -/
def networkParentIds (parents : List (ExecutionNode × ExecutionEdge)) : List TaskId :=
  parents.filterMap (fun p =>
    match p.2 with
    | ExecutionEdge.Memory => none
    | ExecutionEdge.Network => some p.1.task_id)

/-- The job-partitioning fold of `SystemInputFormat::open` computes exactly
the memory parents and the network parents. -/
theorem systemJobs_foldl (parents : List (ExecutionNode × ExecutionEdge))
    (acc : List TaskId × List TaskId) :
    parents.foldl
      (fun (acc : List TaskId × List TaskId) p =>
        match p.2 with
        | ExecutionEdge.Memory => (acc.1 ++ [p.1.task_id], acc.2)
        | ExecutionEdge.Network => (acc.1, acc.2 ++ [p.1.task_id]))
      acc =
    (acc.1 ++ memoryParentIds parents, acc.2 ++ networkParentIds parents) := by
  induction parents generalizing acc with
  | nil => simp [memoryParentIds, networkParentIds]
  | cons p rest ih =>
      cases hp : p.2 <;>
        simp [memoryParentIds, networkParentIds, List.filterMap_cons, hp, ih,
          List.foldl_cons]

/-- Characterization of the receivers installed by `SystemInputFormat::open`
on a fresh `SystemInputFormat`. -/
theorem SystemInputFormat.open_receivers (context : Context) :
    (SystemInputFormat.new.open context).memory_receiver =
      (if memoryParentIds context.parents = [] then none else
        some (memorySubscribe (memoryParentIds context.parents) context.task_id
          (context.application_properties.pub_sub_channel_size.getD
            DEFAULT_CHANNEL_SIZE)
          (context.application_properties.pub_sub_channel_base.getD
            ChannelBaseOn.Unbounded))) ∧
    (SystemInputFormat.new.open context).network_receiver =
      (if networkParentIds context.parents = [] then none else
        some (networkSubscribe (networkParentIds context.parents) context.task_id
          (context.application_properties.pub_sub_channel_size.getD
            DEFAULT_CHANNEL_SIZE)
          (context.application_properties.pub_sub_channel_base.getD
            ChannelBaseOn.Unbounded))) := by
  unfold SystemInputFormat.open SystemInputFormat.new
  rw [systemJobs_foldl]
  simp only [List.nil_append]
  constructor
  · by_cases hm : memoryParentIds context.parents = []
    · simp [hm]
    · rw [if_neg hm, if_pos (List.length_pos.2 hm)]
  · by_cases hn : networkParentIds context.parents = []
    · simp [hn]
    · rw [if_neg hn, if_pos (List.length_pos.2 hn)]

/-- C5: `SystemInputFormat::open` subscribes the `Memory`-classified parents
through the memory pub/sub and the `Network`-classified parents through the
network pub/sub, both calls receiving the same `(channel_size,
channel_base_on)` resolved from the application properties;
`memory_receiver` ends up `Some` iff at least one `Memory` parent exists and
`network_receiver` iff at least one `Network` parent exists. -/
theorem system_input_format_open_subscribes (context : Context) :
    ((SystemInputFormat.new.open context).memory_receiver =
      (if memoryParentIds context.parents = [] then none else
        some (memorySubscribe (memoryParentIds context.parents) context.task_id
          (context.application_properties.pub_sub_channel_size.getD
            DEFAULT_CHANNEL_SIZE)
          (context.application_properties.pub_sub_channel_base.getD
            ChannelBaseOn.Unbounded)))) ∧
    ((SystemInputFormat.new.open context).network_receiver =
      (if networkParentIds context.parents = [] then none else
        some (networkSubscribe (networkParentIds context.parents) context.task_id
          (context.application_properties.pub_sub_channel_size.getD
            DEFAULT_CHANNEL_SIZE)
          (context.application_properties.pub_sub_channel_base.getD
            ChannelBaseOn.Unbounded)))) ∧
    ((SystemInputFormat.new.open context).memory_receiver.isSome ↔
      ∃ p ∈ context.parents, p.2 = ExecutionEdge.Memory) ∧
    ((SystemInputFormat.new.open context).network_receiver.isSome ↔
      ∃ p ∈ context.parents, p.2 = ExecutionEdge.Network) := by
  obtain ⟨hm, hn⟩ := SystemInputFormat.open_receivers context
  refine ⟨hm, hn, ?_, ?_⟩
  · rw [hm]
    by_cases h : memoryParentIds context.parents = []
    · rw [if_pos h]
      simp only [Option.isSome_none, Bool.false_eq_true, false_iff]
      rintro ⟨p, hp, hedge⟩
      have : (match p.2 with
        | ExecutionEdge.Memory => some p.1.task_id
        | ExecutionEdge.Network => none) = none := by
        simp only [memoryParentIds, networkParentIds,
          List.filterMap_eq_nil_iff] at h
        exact h p hp
      rw [hedge] at this
      simp at this
    · rw [if_neg h]
      simp only [Option.isSome_some, true_iff]
      simp only [memoryParentIds, networkParentIds,
        List.filterMap_eq_nil_iff] at h
      push_neg at h
      obtain ⟨p, hp, hne⟩ := h
      refine ⟨p, hp, ?_⟩
      cases hedge : p.2
      · rfl
      · rw [hedge] at hne
        simp at hne
  · rw [hn]
    by_cases h : networkParentIds context.parents = []
    · rw [if_pos h]
      simp only [Option.isSome_none, Bool.false_eq_true, false_iff]
      rintro ⟨p, hp, hedge⟩
      have : (match p.2 with
        | ExecutionEdge.Memory => none
        | ExecutionEdge.Network => some p.1.task_id) = none := by
        simp only [memoryParentIds, networkParentIds,
          List.filterMap_eq_nil_iff] at h
        exact h p hp
      rw [hedge] at this
      simp at this
    · rw [if_neg h]
      simp only [Option.isSome_some, true_iff]
      simp only [memoryParentIds, networkParentIds,
        List.filterMap_eq_nil_iff] at h
      push_neg at h
      obtain ⟨p, hp, hne⟩ := h
      refine ⟨p, hp, ?_⟩
      cases hedge : p.2
      · rw [hedge] at hne
        simp at hne
      · rfl

/-- Both parent-id lists are empty exactly when there are no parents at all
(every parent is classified `Memory` or `Network`). -/
theorem parentIds_nil_iff (parents : List (ExecutionNode × ExecutionEdge)) :
    (memoryParentIds parents = [] ∧ networkParentIds parents = []) ↔
      parents = [] := by
  constructor
  · rintro ⟨hm, hn⟩
    cases parents with
    | nil => rfl
    | cons p rest =>
        cases hp : p.2
        · simp [memoryParentIds, List.filterMap_cons, hp] at hm
        · simp [networkParentIds, List.filterMap_cons, hp] at hn
  · rintro rfl
    simp [memoryParentIds, networkParentIds]

/-- C9: after `open`, `element_iter` hits the `panic!("unsupported")` branch
exactly when the context passed to `open` had no parent edges (so no receiver
was installed); with at least one parent the panic branch is unreachable. -/
theorem element_iter_panic_iff_no_parents (context : Context) :
    ((SystemInputFormat.new.open context).element_iter =
        RunResult.panicked "unsupported") ↔ context.parents = [] := by
  obtain ⟨hm, hn⟩ := SystemInputFormat.open_receivers context
  by_cases h1 : memoryParentIds context.parents = []
  · by_cases h2 : networkParentIds context.parents = []
    · rw [if_pos h1] at hm
      rw [if_pos h2] at hn
      unfold SystemInputFormat.element_iter
      rw [hm, hn]
      exact iff_of_true rfl ((parentIds_nil_iff context.parents).1 ⟨h1, h2⟩)
    · rw [if_pos h1] at hm
      rw [if_neg h2] at hn
      refine iff_of_false ?_ ?_
      · unfold SystemInputFormat.element_iter
        rw [hm, hn]
        simp
      · intro hnil
        apply h2
        rw [hnil]
        rfl
  · by_cases h2 : networkParentIds context.parents = []
    · rw [if_neg h1] at hm
      rw [if_pos h2] at hn
      refine iff_of_false ?_ ?_
      · unfold SystemInputFormat.element_iter
        rw [hm, hn]
        simp
      · intro hnil
        apply h1
        rw [hnil]
        rfl
    · rw [if_neg h1] at hm
      rw [if_neg h2] at hn
      refine iff_of_false ?_ ?_
      · unfold SystemInputFormat.element_iter
        rw [hm, hn]
        simp
      · intro hnil
        apply h1
        rw [hnil]
        rfl

/-! ## Claim theorems: CheckpointStorage -/

/-- C6: `CheckpointStorage::new` maps each backend to the matching variant
(`Memory` to a fresh `MemoryCheckpointStorage`, `MySql` to a
`MySqlCheckpointStorage` holding the given endpoint and table), and `save`,
`load` and `load_by_checkpoint_id` on the wrapper equal the same call, with
unchanged arguments, on the wrapped concrete storage — for every possible
behavior of the concrete storages. -/
theorem checkpoint_storage_dispatch :
    (CheckpointStorage.new CheckpointBackend.Memory =
      CheckpointStorage.memoryCheckpointStorage MemoryCheckpointStorage.new) ∧
    (∀ endpoint table,
      CheckpointStorage.new (CheckpointBackend.MySql endpoint table) =
        CheckpointStorage.mySqlCheckpointStorage
          (MySqlCheckpointStorage.new endpoint table)) ∧
    (∀ endpoint table,
      (MySqlCheckpointStorage.new endpoint table).endpoint = endpoint ∧
      (MySqlCheckpointStorage.new endpoint table).table = table) ∧
    (∀ (memSave : MemoryCheckpointStorage → SaveArgs → Except String Unit)
        (mySqlSave : MySqlCheckpointStorage → SaveArgs → Except String Unit)
        (ms : MemoryCheckpointStorage) (ss : MySqlCheckpointStorage)
        (args : SaveArgs),
      CheckpointStorage.save memSave mySqlSave
          (CheckpointStorage.memoryCheckpointStorage ms) args = memSave ms args ∧
      CheckpointStorage.save memSave mySqlSave
          (CheckpointStorage.mySqlCheckpointStorage ss) args = mySqlSave ss args) ∧
    (∀ (memLoad : MemoryCheckpointStorage → LoadArgs → Except String (List Checkpoint))
        (mySqlLoad : MySqlCheckpointStorage → LoadArgs → Except String (List Checkpoint))
        (ms : MemoryCheckpointStorage) (ss : MySqlCheckpointStorage)
        (args : LoadArgs),
      CheckpointStorage.load memLoad mySqlLoad
          (CheckpointStorage.memoryCheckpointStorage ms) args = memLoad ms args ∧
      CheckpointStorage.load memLoad mySqlLoad
          (CheckpointStorage.mySqlCheckpointStorage ss) args = mySqlLoad ss args) ∧
    (∀ (memLoadById :
          MemoryCheckpointStorage → LoadByIdArgs → Except String (List Checkpoint))
        (mySqlLoadById :
          MySqlCheckpointStorage → LoadByIdArgs → Except String (List Checkpoint))
        (ms : MemoryCheckpointStorage) (ss : MySqlCheckpointStorage)
        (args : LoadByIdArgs),
      CheckpointStorage.load_by_checkpoint_id memLoadById mySqlLoadById
          (CheckpointStorage.memoryCheckpointStorage ms) args = memLoadById ms args ∧
      CheckpointStorage.load_by_checkpoint_id memLoadById mySqlLoadById
          (CheckpointStorage.mySqlCheckpointStorage ss) args = mySqlLoadById ss args) :=
  ⟨rfl, fun _ _ => rfl, fun _ _ => ⟨rfl, rfl⟩,
    fun _ _ _ _ _ => ⟨rfl, rfl⟩,
    fun _ _ _ _ _ => ⟨rfl, rfl⟩,
    fun _ _ _ _ _ => ⟨rfl, rfl⟩⟩

/-! ## Claim theorems: ChannelBaseOn parsing -/

/-- C7: `ChannelBaseOn::try_from(s)` returns `Ok(Bounded)` iff the lowercase
of `s` is `"bounded"`, `Ok(Unbounded)` iff the lowercase of `s` is
`"unbounded"`, and the `Unsupported mode` error for every other string — so
parsing accepts exactly the two configured modes, case-insensitively. -/
theorem channel_base_on_try_from_cases (s : String) :
    (ChannelBaseOn.try_from s = Except.ok ChannelBaseOn.Bounded ↔
      rustToLowercase s = "bounded") ∧
    (ChannelBaseOn.try_from s = Except.ok ChannelBaseOn.Unbounded ↔
      rustToLowercase s = "unbounded") ∧
    (ChannelBaseOn.try_from s =
        Except.error ("Unsupported mode " ++ rustToLowercase s) ↔
      (rustToLowercase s ≠ "bounded" ∧ rustToLowercase s ≠ "unbounded")) := by
  unfold ChannelBaseOn.try_from
  by_cases h1 : rustToLowercase s = "bounded"
  · rw [if_pos h1]
    refine ⟨iff_of_true rfl h1, ?_, ?_⟩
    · constructor
      · intro hcontra
        exact absurd hcontra (by simp)
      · intro h2
        rw [h1] at h2
        exact absurd h2 (by decide)
    · constructor
      · intro hcontra
        exact absurd hcontra (by simp)
      · rintro ⟨hb, _⟩
        exact absurd h1 hb
  · rw [if_neg h1]
    by_cases h2 : rustToLowercase s = "unbounded"
    · rw [if_pos h2]
      refine ⟨?_, iff_of_true rfl h2, ?_⟩
      · constructor
        · intro hcontra
          exact absurd hcontra (by simp)
        · intro hb
          exact absurd hb h1
      · constructor
        · intro hcontra
          exact absurd hcontra (by simp)
        · rintro ⟨_, hu⟩
          exact absurd h2 hu
    · rw [if_neg h2]
      refine ⟨?_, ?_, iff_of_true rfl ⟨h1, h2⟩⟩
      · constructor
        · intro hcontra
          exact absurd hcontra (by simp)
        · intro hb
          exact absurd hb h1
      · constructor
        · intro hcontra
          exact absurd hcontra (by simp)
        · intro hu
          exact absurd hu h2

/-! ## Claim theorems: vec_source -/

/-- A record with payload `[n]`, used to build distinguishable input data. -/
def mkRecord (n : Nat) : Record :=
  ⟨[n], 0, none⟩

/-- `mkRecord` is injective. -/
theorem mkRecord_injective : Function.Injective mkRecord := by
  intro a b hab
  simpa [mkRecord] using hab

/-- Membership in the index-filtered share of `(range n).map mkRecord`:
`mkRecord j` is selected iff `j < n` and the index predicate holds at `j`. -/
theorem mem_vec_enumFilter (n : Nat) (g : Nat → Nat) (c : Nat) (j : Nat) :
    (mkRecord j ∈ ((List.range n).map mkRecord).enum.filterMap
        (fun x => if g x.1 = c then some x.2 else none)) ↔
      (j < n ∧ g j = c) := by
  rw [List.mem_filterMap]
  constructor
  · rintro ⟨⟨i, r⟩, hmem, hx⟩
    rw [List.mk_mem_enum_iff_getElem?, List.getElem?_map] at hmem
    by_cases hi : i < n
    · rw [List.getElem?_range hi] at hmem
      simp only [Option.map_some'] at hmem
      have hr : r = mkRecord i := by
        injection hmem with h
        exact h.symm
      subst hr
      by_cases hg : g i = c
      · rw [if_pos hg] at hx
        have hij : i = j := mkRecord_injective (by injection hx)
        subst hij
        exact ⟨hi, hg⟩
      · rw [if_neg hg] at hx
        exact absurd hx (by simp)
    · rw [List.getElem?_eq_none (by simpa using Nat.le_of_not_lt hi)] at hmem
      exact absurd hmem (by simp)
  · rintro ⟨hj, hg⟩
    refine ⟨(j, mkRecord j), ?_, ?_⟩
    · rw [List.mk_mem_enum_iff_getElem?, List.getElem?_map, List.getElem?_range hj]
      rfl
    · rw [if_pos hg]

/-- C8 counterexample: on `65537` pairwise-distinct records with
`num_tasks = 3`, the task share computed by `vec_source` differs from the
claimed `i mod num_tasks = task_number` share: index `65536` is truncated to
`u16` value `0`, so task `0` receives it although `65536 mod 3 = 1`. -/
theorem vec_source_truncation_counterexample :
    vec_source_task_data ((List.range 65537).map mkRecord) 3 0 ≠
      vec_source_claimed_data ((List.range 65537).map mkRecord) 3 0 := by
  intro heq
  have h1 : mkRecord 65536 ∈
      vec_source_task_data ((List.range 65537).map mkRecord) 3 0 := by
    unfold vec_source_task_data
    rw [if_neg (by decide)]
    exact (mem_vec_enumFilter 65537 (fun i => i % 65536 % 3) 0 65536).2
      ⟨by decide, by decide⟩
  have h2 : mkRecord 65536 ∉
      vec_source_claimed_data ((List.range 65537).map mkRecord) 3 0 := by
    unfold vec_source_claimed_data
    intro hmem
    have h3 := (mem_vec_enumFilter 65537 (fun i => i % 3) 0 65536).1 hmem
    exact absurd h3.2 (by decide)
  rw [heq] at h1
  exact h2 h1

/-- Summed over all task numbers, the truncated-index shares cover each
position of the list exactly once. -/
theorem sum_share_lengths (l : List (Nat × Record)) (num_tasks : Nat)
    (h : 1 ≤ num_tasks) :
    ∑ tn ∈ Finset.range num_tasks,
      (l.filterMap (fun x =>
        if x.1 % 65536 % num_tasks = tn then some x.2 else none)).length =
    l.length := by
  induction l with
  | nil => simp
  | cons x rest ih =>
      have hx : x.1 % 65536 % num_tasks ∈ Finset.range num_tasks := by
        simp only [Finset.mem_range]
        exact Nat.mod_lt _ (by omega)
      have hlen : ∀ tn,
          (List.filterMap (fun y =>
            if y.1 % 65536 % num_tasks = tn then some y.2 else none)
            (x :: rest)).length =
          (if x.1 % 65536 % num_tasks = tn then 1 else 0) +
            (List.filterMap (fun y =>
              if y.1 % 65536 % num_tasks = tn then some y.2 else none)
              rest).length := by
        intro tn
        rw [List.filterMap_cons]
        by_cases hc : x.1 % 65536 % num_tasks = tn
        · rw [if_pos hc, if_pos hc]
          simp [Nat.add_comm]
        · rw [if_neg hc, if_neg hc]
          simp
      calc ∑ tn ∈ Finset.range num_tasks,
            (List.filterMap (fun y =>
              if y.1 % 65536 % num_tasks = tn then some y.2 else none)
              (x :: rest)).length
          = ∑ tn ∈ Finset.range num_tasks,
              ((if x.1 % 65536 % num_tasks = tn then 1 else 0) +
                (List.filterMap (fun y =>
                  if y.1 % 65536 % num_tasks = tn then some y.2 else none)
                  rest).length) :=
            Finset.sum_congr rfl (fun tn _ => hlen tn)
        _ = (∑ tn ∈ Finset.range num_tasks,
              (if x.1 % 65536 % num_tasks = tn then 1 else 0)) +
            ∑ tn ∈ Finset.range num_tasks,
              (List.filterMap (fun y =>
                if y.1 % 65536 % num_tasks = tn then some y.2 else none)
                rest).length := Finset.sum_add_distrib
        _ = 1 + rest.length := by
            rw [ih, Finset.sum_ite_eq, if_pos hx]
        _ = (x :: rest).length := by
            simp [Nat.add_comm]

/-- C8 (amended): for every `data`, `num_tasks ≥ 1` and
`task_number < num_tasks`, the `vec_source` task share is exactly the records
whose index `i` in `data` satisfies `(i mod 65536) mod num_tasks =
task_number` (the source truncates the index to `u16` before the modulo), in
increasing index order; for `num_tasks = 1` the single task yields the whole
vector in order, and across the `num_tasks` task numbers each position of
`data` is yielded by exactly one task (the share lengths sum to
`data.length`). -/
theorem vec_source_task_share (data : List Record) (num_tasks task_number : Nat)
    (h1 : 1 ≤ num_tasks) (h2 : task_number < num_tasks) :
    vec_source_task_data data num_tasks task_number =
      data.enum.filterMap (fun x =>
        if x.1 % 65536 % num_tasks = task_number then some x.2 else none) ∧
    vec_source_task_data data 1 0 = data ∧
    ∑ tn ∈ Finset.range num_tasks,
      (vec_source_task_data data num_tasks tn).length = data.length := by
  refine ⟨?_, rfl, ?_⟩
  · unfold vec_source_task_data
    by_cases h : num_tasks = 1
    · subst h
      rw [if_pos rfl]
      have htn : task_number = 0 := by omega
      subst htn
      have hcongr : ∀ x ∈ data.enum,
          (if x.1 % 65536 % 1 = 0 then some x.2 else none) = some x.2 := by
        intro x _
        rw [if_pos (Nat.mod_one _)]
      rw [List.filterMap_congr hcongr,
        show (fun (x : Nat × Record) => some x.2) = some ∘ Prod.snd from rfl,
        List.filterMap_eq_map, List.enum_map_snd]
    · rw [if_neg h]
  · by_cases h : num_tasks = 1
    · subst h
      rw [Finset.sum_range_one]
      rfl
    · have hfm : ∀ tn, vec_source_task_data data num_tasks tn =
          data.enum.filterMap (fun x =>
            if x.1 % 65536 % num_tasks = tn then some x.2 else none) := by
        intro tn
        unfold vec_source_task_data
        rw [if_neg h]
      calc ∑ tn ∈ Finset.range num_tasks,
            (vec_source_task_data data num_tasks tn).length
          = ∑ tn ∈ Finset.range num_tasks,
              (data.enum.filterMap (fun x =>
                if x.1 % 65536 % num_tasks = tn then some x.2 else none)).length :=
            Finset.sum_congr rfl (fun tn _ => by rw [hfm])
        _ = data.enum.length := sum_share_lengths data.enum num_tasks h1
        _ = data.length := by rw [List.enum_length]

/-- Witness for the amended C8: three records, two tasks, task number 1. -/
theorem vec_source_task_share_witness :
    1 ≤ 2 ∧ (1 : Nat) < 2 ∧
    (vec_source_task_data [mkRecord 0, mkRecord 1, mkRecord 2] 2 1 =
      ([mkRecord 0, mkRecord 1, mkRecord 2].enum.filterMap (fun x =>
        if x.1 % 65536 % 2 = 1 then some x.2 else none)) ∧
    vec_source_task_data [mkRecord 0, mkRecord 1, mkRecord 2] 1 0 =
      [mkRecord 0, mkRecord 1, mkRecord 2] ∧
    ∑ tn ∈ Finset.range 2,
      (vec_source_task_data [mkRecord 0, mkRecord 1, mkRecord 2] 2 tn).length =
      [mkRecord 0, mkRecord 1, mkRecord 2].length) :=
  ⟨by decide, by decide,
    vec_source_task_share [mkRecord 0, mkRecord 1, mkRecord 2] 2 1
      (by decide) (by decide)⟩
